import Mathlib

/-!
Verification of the GObject property-binding core (`gbinding.c`) and the
D-Bus authorization delegate (`gdbusauthobserver.c`).

This file gives a shallow embedding of the two source files and proves the
frozen specification claims against it.

Modelling conventions:
* Objects and bindings are identified by `Nat` ids; the world maps ids to
  per-object / per-binding state records.
* `GValue` is a (type tag, payload) pair; `GType` is a `Nat` tag.  The generic
  type relations (`g_type_is_a`, `g_value_type_compatible`,
  `g_value_type_transformable`, `g_value_transform`) live in `gtype.c` /
  `gvalue.c`, outside the given sources, so they are parameters of the model
  (a `TypeSystem`), as the spec treats them as a registered-conversion oracle.
* The Property Store, change-notification, quark-data and weak-reference
  collaborators are repository code not present under the given sources; they
  are modelled from the spec's boundary contracts (section 6) and are marked
  `Modelled from the spec:` below.
* Propagation is a fuel-indexed interpreter `run`: every recursive call
  consumes one unit of fuel, so termination is structural; claims about
  guarded propagation are proved for every fuel.
-/

/-- A `GValue`: a type tag plus the (abstracted) contents. `g_value_init`
produces `⟨ty, 0⟩`, the zero value of the type. -/
structure GValue where
  ty : Nat
  pay : Nat
deriving DecidableEq

/-- The generic type/conversion oracle of `gtype.c`/`gvalue.c`, which is not
part of the given sources.  `is_a a b` is `g_type_is_a`, `compatible` is
`g_value_type_compatible` (directly copyable), `transformable` is
`g_value_type_transformable` (a registered conversion exists), and
`transform v t` is `g_value_transform` of `v` into a value of type `t`
(`none` models a failing conversion). -/
structure TypeSystem where
  is_a : Nat → Nat → Bool
  compatible : Nat → Nat → Bool
  transformable : Nat → Nat → Bool
  transform : GValue → Nat → Option GValue

/-- `g_value_copy (value_a, value_b)`: copy the contents of `value_a` into
`value_b` (which keeps its own type tag). -/
def g_value_copy (value_a value_b : GValue) : GValue :=
  { value_b with pay := value_a.pay }

/-- `default_transform` (gbinding.c lines 252-289), translated branch by
branch.  `value_b` arrives `g_value_init`ed to the destination type.
`none` models `return FALSE`; `some v` models `return TRUE` with `v` the
final contents of `value_b`.  NOTE the last branch: when the types are not
`is_a`-related, not compatible and not transformable, the C code falls
through both inner `if`s to the `done:` label and returns TRUE with
`value_b` never written — hence `some value_b`. -/
def default_transform (ts : TypeSystem) (value_a value_b : GValue) : Option GValue :=
  if !(ts.is_a value_a.ty value_b.ty) then
    if ts.compatible value_a.ty value_b.ty then
      some (g_value_copy value_a value_b)
    else if ts.transformable value_a.ty value_b.ty then
      match ts.transform value_a value_b.ty with
      | some v => some v
      | none => none
    else
      some value_b
  else
    some (g_value_copy value_a value_b)

/-- `GBindingTransformFunc`: receives the binding id, `value_a`, the
initialized `value_b`, and the user data; returns `none` for FALSE or
`some v` for TRUE with `v` the contents written into `value_b`. -/
def TransformFn : Type := Nat → GValue → GValue → Nat → Option GValue

/-- `default_transform_to` (gbinding.c lines 291-298). -/
def default_transform_to (ts : TypeSystem) : TransformFn :=
  fun _binding value_a value_b _user_data => default_transform ts value_a value_b

/-- `default_transform_from` (gbinding.c lines 300-307). -/
def default_transform_from (ts : TypeSystem) : TransformFn :=
  fun _binding value_a value_b _user_data => default_transform ts value_a value_b

/-- A `GParamSpec`: property name, value type, the three flags the binding
code inspects, and the `g_param_value_validate` coercion of the property
(pspec classes are defined outside the given sources, so validation is a
function field). -/
structure GParamSpec where
  name : String
  value_type : Nat
  readable : Bool
  writable : Bool
  construct_only : Bool
  validate : GValue → GValue

instance : Inhabited GParamSpec :=
  ⟨{ name := "", value_type := 0, readable := false, writable := false,
     construct_only := false, validate := fun v => v }⟩

/-- The two notification handlers a binding can connect:
`onSource bid` is `on_source_notify` and `onTarget bid` is
`on_target_notify`, each closed over the binding id (the `user_data`
of `g_signal_connect`). -/
inductive Handler where
  | onSource (bid : Nat)
  | onTarget (bid : Nat)
deriving DecidableEq

/-- `struct _GBinding` (gbinding.c lines 143-171).  `has_notify` records
whether a `GDestroyNotify` release callback was supplied; `notify_calls`
instruments how many times it has been invoked (for the exactly-once
claims); `finalized` records that `g_binding_finalize` has run;
`ref_count` is the GObject reference count of the binding instance. -/
structure Binding where
  source : Option Nat
  target : Option Nat
  source_property : String
  target_property : String
  source_pspec : GParamSpec
  target_pspec : GParamSpec
  transform_s2t : TransformFn
  transform_t2s : TransformFn
  bidirectional : Bool
  source_notify : Nat
  target_notify : Nat
  transform_data : Nat
  has_notify : Bool
  notify_calls : Nat
  is_frozen : Bool
  ref_count : Nat
  finalized : Bool

instance : Inhabited Binding :=
  ⟨{ source := none, target := none, source_property := "", target_property := "",
     source_pspec := default, target_pspec := default,
     transform_s2t := fun _ _ _ _ => none, transform_t2s := fun _ _ _ _ => none,
     bidirectional := false, source_notify := 0, target_notify := 0,
     transform_data := 0, has_notify := false, notify_calls := 0,
     is_frozen := false, ref_count := 0, finalized := false }⟩

/-- Per-object state: the class property descriptors, the property store,
the ordered `notify` signal subscriptions (handler id, closure), the weak
references registered by bindings (each weak ref in this code is
`weak_unbind` closed over a binding id), and the `quark_gbinding` qdata:
the stored head of the registry `GList`, as the list of binding ids
forward-reachable from it. -/
structure GObjectState where
  pspecs : List GParamSpec
  props : List (String × GValue)
  subs : List (Nat × Handler)
  weaks : List Nat
  qdata : List Nat
  alive : Bool

instance : Inhabited GObjectState :=
  ⟨{ pspecs := [], props := [], subs := [], weaks := [], qdata := [], alive := false }⟩

/-- The world: object states, binding states, and the fresh-id counters for
signal-handler ids and binding ids. -/
structure World where
  objects : Nat → GObjectState
  bindings : Nat → Binding
  next_handler : Nat
  next_binding : Nat

/-- Update one object's state. -/
def updObj (w : World) (o : Nat) (f : GObjectState → GObjectState) : World :=
  { w with objects := fun k => if k = o then f (w.objects k) else w.objects k }

/-- Update one binding's state. -/
def updBinding (w : World) (bid : Nat) (f : Binding → Binding) : World :=
  { w with bindings := fun k => if k = bid then f (w.bindings k) else w.bindings k }

/-- Association-list lookup (used for the property store). -/
def alist_get {α : Type} : List (String × α) → String → Option α
  | [], _ => none
  | (k, a) :: t, key => if k = key then some a else alist_get t key

/-- Association-list insert-or-replace (used for the property store). -/
def alist_set {α : Type} : List (String × α) → String → α → List (String × α)
  | [], key, a => [(key, a)]
  | (k, b) :: t, key, a =>
      if k = key then (key, a) :: t else (k, b) :: alist_set t key a

/-- Modelled from the spec: `g_object_class_find_property` — look the named
property descriptor up on the object's type (spec section 4.1, "Validates
existence of both properties by name on the respective object types"). -/
def g_object_class_find_property (w : World) (o : Nat) (name : String) : Option GParamSpec :=
  (w.objects o).pspecs.find? (fun p => p.name == name)

/-- Modelled from the spec: Property Store `get(object, propertyName)`
(spec section 6).  The C fills a `g_value_init`ed receiver, which is
returned unchanged when the store holds no value. -/
def g_object_get_property (w : World) (o : Nat) (name : String) (init : GValue) : GValue :=
  (alist_get (w.objects o).props name).getD init

/-- Modelled from the spec: the storing half of Property Store
`set(object, propertyName, Value)` (spec section 6); the synchronous
notification dispatch that follows is performed by `run`. -/
def store_prop (w : World) (o : Nat) (name : String) (v : GValue) : World :=
  updObj w o (fun s => { s with props := alist_set s.props name v })

/-- Modelled from the spec: `subscribe` of the change-notification contract
(spec section 6) — append the handler (dispatch is in subscription order)
and return the fresh subscription handle. -/
def g_signal_connect (w : World) (o : Nat) (h : Handler) : Nat × World :=
  (w.next_handler,
   { (updObj w o (fun s => { s with subs := s.subs ++ [(w.next_handler, h)] })) with
     next_handler := w.next_handler + 1 })

/-- Modelled from the spec: `unsubscribe(SubscriptionHandle)` (spec
section 6). -/
def g_signal_handler_disconnect (w : World) (o : Nat) (hid : Nat) : World :=
  updObj w o (fun s => { s with subs := s.subs.filter (fun p => !(p.1 == hid)) })

/-- Modelled from the spec: registering the destruction hook
`onDestroy(object, callback)` (spec section 6); every weak ref taken in
this code is `weak_unbind` closed over a binding id. -/
def g_object_weak_ref (w : World) (o : Nat) (bid : Nat) : World :=
  updObj w o (fun s => { s with weaks := s.weaks ++ [bid] })

/-- Modelled from the spec: removing a previously registered destruction
hook. -/
def g_object_weak_unref (w : World) (o : Nat) (bid : Nat) : World :=
  updObj w o (fun s => { s with weaks := s.weaks.erase bid })

/-- Modelled from the spec: `g_object_get_qdata` on `quark_gbinding` — read
the stored registry-list head (spec section 4.4). -/
def g_object_get_qdata (w : World) (o : Nat) : List Nat :=
  (w.objects o).qdata

/-- Modelled from the spec: `g_object_set_qdata` on `quark_gbinding` —
store a registry-list head (spec section 4.4). -/
def g_object_set_qdata (w : World) (o : Nat) (l : List Nat) : World :=
  updObj w o (fun s => { s with qdata := l })

/-- `add_binding_qdata` (gbinding.c lines 193-207), translated branch by
branch.  When the stored list is non-NULL the C code computes
`g_list_prepend (bindings, binding)` — a fresh head node — but never calls
`g_object_set_qdata` with it, so the stored registry entry is left
unchanged and the new head node is unreachable by forward traversal from
it.  The dead `let` mirrors that discarded computation. -/
def add_binding_qdata (w : World) (gobject : Nat) (binding : Nat) : World :=
  let bindings := g_object_get_qdata w gobject
  if bindings = [] then
    g_object_set_qdata w gobject [binding]
  else
    let _discarded_new_head := binding :: bindings
    w

/-- `remove_binding_qdata` (gbinding.c lines 209-217), translated branch by
branch.  The C code computes `g_list_remove (bindings, binding)` into a
local and returns without storing the new head back, so the stored
registry entry is never updated.  (In-place node unlinking could still
shrink a stored multi-node list, but `add_binding_qdata` above only ever
stores one-element lists, so on every reachable state the stored entry is
unchanged — when the binding heads the stored list the C leaves the qdata
pointing at the freed node.)  The dead `let` mirrors the discarded
computation. -/
def remove_binding_qdata (w : World) (gobject : Nat) (binding : Nat) : World :=
  let bindings := g_object_get_qdata w gobject
  let _discarded_new_head := bindings.erase binding
  w

/-- Events observed during propagation: `store` is a Property Store write
(external or induced), `fired bid` marks binding `bid`'s handler passing
its guard/name/transform checks and performing its destination write. -/
inductive Ev where
  | store (obj : Nat) (name : String) (pay : Nat)
  | fired (bid : Nat)
deriving DecidableEq

/-- Does the event record binding `bid` performing its destination write? -/
def isFired (bid : Nat) : Ev → Bool
  | Ev.fired b => b == bid
  | _ => false

/-- Number of destination writes binding `bid` performed in a trace. -/
def firedCount (bid : Nat) (evs : List Ev) : Nat :=
  evs.countP (isFired bid)

/-- The pending activation of the synchronous propagation machinery:
a Property Store `set`, the in-order notification dispatch over a
subscriber list, or one handler invocation. -/
inductive Call where
  | set (obj : Nat) (name : String) (v : GValue)
  | notif (subs : List (Nat × Handler)) (obj : Nat) (name : String)
  | handle (obj : Nat) (pname : String) (h : Handler)

/-- The guard/name/transform prelude of `on_source_notify` (gbinding.c
lines 319-339): reading the current source value and applying the
source-to-target transform.  Split out so that the transform-failure
claims can name it. -/
def source_transform_result (w : World) (bid : Nat) : Option GValue :=
  let b := w.bindings bid
  let source_value :=
    g_object_get_property w (b.source.getD 0) b.source_pspec.name
      ⟨b.source_pspec.value_type, 0⟩
  b.transform_s2t bid source_value ⟨b.target_pspec.value_type, 0⟩ b.transform_data

/-- The early-return checks of `on_source_notify` (gbinding.c lines
319-343): `none` when the guard flag is set, when the notified property
name differs from the watched source property (interned-pointer equality
becomes string equality: both sides are interned), or when the transform
reports failure; otherwise the validated candidate value for the target
property (`g_param_value_validate`, line 343). -/
def source_propagation_step (w : World) (pname : String) (bid : Nat) : Option GValue :=
  let b := w.bindings bid
  if b.is_frozen then none
  else if pname ≠ b.source_property then none
  else
    match source_transform_result w bid with
    | none => none
    | some tv => some (b.target_pspec.validate tv)

/-- The transform prelude of `on_target_notify` (gbinding.c lines 363-382):
reading the current target value and applying the target-to-source
transform. -/
def target_transform_result (w : World) (bid : Nat) : Option GValue :=
  let b := w.bindings bid
  let source_value :=
    g_object_get_property w (b.target.getD 0) b.target_pspec.name
      ⟨b.target_pspec.value_type, 0⟩
  b.transform_t2s bid source_value ⟨b.source_pspec.value_type, 0⟩ b.transform_data

/-- The early-return checks of `on_target_notify` (gbinding.c lines
363-387), symmetric to `source_propagation_step`. -/
def target_propagation_step (w : World) (pname : String) (bid : Nat) : Option GValue :=
  let b := w.bindings bid
  if b.is_frozen then none
  else if pname ≠ b.target_property then none
  else
    match target_transform_result w bid with
    | none => none
    | some tv => some (b.source_pspec.validate tv)

/-- The synchronous propagation machinery.  `Call.set` is the Property
Store `set` of the spec's section 6 (store, then fire the object's
subscribers in order — Modelled from the spec); the two `Call.handle`
cases are `on_source_notify` (gbinding.c lines 309-351) and
`on_target_notify` (lines 353-395): on success the handler sets the guard
flag (`is_frozen := true`, line 341), writes the destination property via
the standard setter, and clears the guard flag (line 346).  Fuel is a
modelling artifact: every recursive call consumes one unit, and exhausted
fuel truncates the computation. -/
def run : Nat → World → Call → World × List Ev
  | 0, w, _ => (w, [])
  | fuel + 1, w, Call.set obj name v =>
    let w1 := store_prop w obj name v
    let r := run fuel w1 (Call.notif ((w1.objects obj).subs) obj name)
    (r.1, Ev.store obj name v.pay :: r.2)
  | _ + 1, w, Call.notif [] _ _ => (w, [])
  | fuel + 1, w, Call.notif ((_, h) :: rest) obj name =>
    let r1 := run fuel w (Call.handle obj name h)
    let r2 := run fuel r1.1 (Call.notif rest obj name)
    (r2.1, r1.2 ++ r2.2)
  | fuel + 1, w, Call.handle _obj pname (Handler.onSource bid) =>
    match source_propagation_step w pname bid with
    | none => (w, [])
    | some tv =>
      let b := w.bindings bid
      let w1 := updBinding w bid (fun x => { x with is_frozen := true })
      let r := run fuel w1 (Call.set (b.target.getD 0) b.target_pspec.name tv)
      (updBinding r.1 bid (fun x => { x with is_frozen := false }), Ev.fired bid :: r.2)
  | fuel + 1, w, Call.handle _obj pname (Handler.onTarget bid) =>
    match target_propagation_step w pname bid with
    | none => (w, [])
    | some tv =>
      let b := w.bindings bid
      let w1 := updBinding w bid (fun x => { x with is_frozen := true })
      let r := run fuel w1 (Call.set (b.source.getD 0) b.source_pspec.name tv)
      (updBinding r.1 bid (fun x => { x with is_frozen := false }), Ev.fired bid :: r.2)

/-- `g_object_set_property` on the embedded world: store and synchronously
dispatch, with the given fuel. -/
def set_property (fuel : Nat) (w : World) (o : Nat) (name : String) (v : GValue) :
    World × List Ev :=
  run fuel w (Call.set o name v)

/-- `on_source_notify` (gbinding.c lines 309-351) as a world transformer:
the handler of binding `bid` invoked on object `gobject` with the notified
property named `pname`. -/
def on_source_notify (fuel : Nat) (w : World) (gobject : Nat) (pname : String)
    (bid : Nat) : World × List Ev :=
  run fuel w (Call.handle gobject pname (Handler.onSource bid))

/-- `on_target_notify` (gbinding.c lines 353-395) as a world transformer. -/
def on_target_notify (fuel : Nat) (w : World) (gobject : Nat) (pname : String)
    (bid : Nat) : World × List Ev :=
  run fuel w (Call.handle gobject pname (Handler.onTarget bid))

/-- `g_binding_finalize` (gbinding.c lines 397-429), translated branch by
branch: invoke the release callback (once — the C nulls `binding->notify`
after the call), tear down whatever endpoint wiring is still present, and
chain to the parent finalizer (`finalized := true`). -/
def g_binding_finalize (w : World) (bid : Nat) : World :=
  let b := w.bindings bid
  let w :=
    if b.has_notify then
      updBinding w bid (fun x =>
        { x with notify_calls := x.notify_calls + 1, transform_data := 0,
                 has_notify := false })
    else w
  let b1 := w.bindings bid
  let w :=
    match b1.source with
    | some s =>
      let w := if b1.source_notify ≠ 0 then g_signal_handler_disconnect w s b1.source_notify else w
      let w := g_object_weak_unref w s bid
      remove_binding_qdata w s bid
    | none => w
  let b2 := w.bindings bid
  let w :=
    match b2.target with
    | some t =>
      let w := if b2.target_notify ≠ 0 then g_signal_handler_disconnect w t b2.target_notify else w
      let w := g_object_weak_unref w t bid
      remove_binding_qdata w t bid
    | none => w
  updBinding w bid (fun x => { x with finalized := true })

/-- Modelled from the spec: `g_object_unref` on the binding instance —
drop one reference; the last reference runs `g_binding_finalize`
(spec section 3, Lifecycle). -/
def g_object_unref_binding (w : World) (bid : Nat) : World :=
  let b := w.bindings bid
  if b.ref_count ≤ 1 then
    g_binding_finalize (updBinding w bid (fun x => { x with ref_count := 0 })) bid
  else
    updBinding w bid (fun x => { x with ref_count := x.ref_count - 1 })

/-- Modelled from the spec: `g_object_ref` on the binding instance (the
creator keeping its own handle). -/
def g_object_ref_binding (w : World) (bid : Nat) : World :=
  updBinding w bid (fun x => { x with ref_count := x.ref_count + 1 })

/-- `weak_unbind` (gbinding.c lines 219-250), translated branch by branch:
the destruction callback of binding `bid`, invoked with the object that is
being destroyed.  For the destroyed endpoint the binding only invalidates
its reference; for the surviving endpoint it disconnects its notification
subscription, drops its weak reference, calls `remove_binding_qdata`, and
invalidates the reference; finally it drops the binding's own reference
(running `g_binding_finalize` if that was the last one). -/
def weak_unbind (w : World) (bid : Nat) (where_the_object_was : Nat) : World :=
  let b := w.bindings bid
  let w :=
    if b.source = some where_the_object_was then
      updBinding w bid (fun x => { x with source := none })
    else
      let s := b.source.getD 0
      let w := if b.source_notify ≠ 0 then g_signal_handler_disconnect w s b.source_notify else w
      let w := g_object_weak_unref w s bid
      let w := remove_binding_qdata w s bid
      updBinding w bid (fun x => { x with source := none })
  let b2 := w.bindings bid
  let w :=
    if b2.target = some where_the_object_was then
      updBinding w bid (fun x => { x with target := none })
    else
      let t := b2.target.getD 0
      let w := if b2.target_notify ≠ 0 then g_signal_handler_disconnect w t b2.target_notify else w
      let w := g_object_weak_unref w t bid
      let w := remove_binding_qdata w t bid
      updBinding w bid (fun x => { x with target := none })
  g_object_unref_binding w bid

/-- Modelled from the spec: the destruction hook dispatch (spec section 6,
`onDestroy`): when an object begins irreversible teardown its registered
destruction callbacks — here always `weak_unbind` closed over a binding
id — run synchronously, in registration order, exactly once. -/
def destroy_object (w : World) (o : Nat) : World :=
  let cbs := (w.objects o).weaks
  let w := updObj w o (fun s => { s with alive := false, weaks := [] })
  cbs.foldl (fun w bid => weak_unbind w bid o) w

/-- `g_binding_constructed` (gbinding.c lines 503-545), translated
statement by statement: resolve the two property descriptors by name,
install the default transformation functions, connect `on_source_notify`
to the source's notify signal, weak-ref and register on the source,
connect `on_target_notify` to the target's notify signal only if the
binding is bidirectional, and weak-ref and register on the target. -/
def g_binding_constructed (ts : TypeSystem) (w : World) (bid : Nat) : World :=
  let b := w.bindings bid
  let source_pspec :=
    (g_object_class_find_property w (b.source.getD 0) b.source_property).getD default
  let target_pspec :=
    (g_object_class_find_property w (b.target.getD 0) b.target_property).getD default
  let w := updBinding w bid (fun x =>
    { x with source_pspec := source_pspec, target_pspec := target_pspec,
             transform_s2t := default_transform_to ts,
             transform_t2s := default_transform_from ts,
             transform_data := 0, has_notify := false })
  let src := b.source.getD 0
  let tgt := b.target.getD 0
  let hw := g_signal_connect w src (Handler.onSource bid)
  let w := updBinding hw.2 bid (fun x => { x with source_notify := hw.1 })
  let w := g_object_weak_ref w src bid
  let w := add_binding_qdata w src bid
  let w :=
    if b.bidirectional then
      let tw := g_signal_connect w tgt (Handler.onTarget bid)
      updBinding tw.2 bid (fun x => { x with target_notify := tw.1 })
    else w
  let w := g_object_weak_ref w tgt bid
  add_binding_qdata w tgt bid

/-- `g_object_bind_property_full` (gbinding.c lines 776-880), translated
branch by branch.  `flags` is reduced to its only binding-relevant bit,
`bidirectional` (`G_BINDING_BIDIRECTIONAL`); `notify` records whether a
`GDestroyNotify` release callback was supplied.  `none` models the NULL
(error) returns of the C; on success the fresh binding id is returned and
the construction side effects of `g_binding_constructed` are applied,
after which the user transformation functions and context replace the
defaults (gbinding.c lines 873-877). -/
def g_object_bind_property_full (ts : TypeSystem) (w : World)
    (source : Nat) (source_property : String)
    (target : Nat) (target_property : String)
    (bidirectional : Bool)
    (transform_to transform_from : Option TransformFn)
    (user_data : Nat) (notify : Bool) : Option Nat × World :=
  if source = target ∧ source_property = target_property then (none, w)
  else
    match g_object_class_find_property w source source_property with
    | none => (none, w)
    | some pspec =>
      if !pspec.readable then (none, w)
      else if bidirectional && (pspec.construct_only || !pspec.writable) then (none, w)
      else
        match g_object_class_find_property w target target_property with
        | none => (none, w)
        | some tpspec =>
          if tpspec.construct_only || !tpspec.writable then (none, w)
          else if bidirectional && !tpspec.readable then (none, w)
          else
            -- NULL transforms were defaulted to the Transform Pipeline's
            -- defaults before validation (gbinding.c lines 801-805); the
            -- defaulting is a pure local assignment with no observable
            -- effect until the assignment into the binding below.
            let transform_to := transform_to.getD (default_transform_to ts)
            let transform_from := transform_from.getD (default_transform_from ts)
            let bid := w.next_binding
            let b0 : Binding :=
              { (default : Binding) with
                source := some source, target := some target,
                source_property := source_property,
                target_property := target_property,
                bidirectional := bidirectional, ref_count := 1 }
            let w1 : World :=
              { w with bindings := fun k => if k = bid then b0 else w.bindings k,
                       next_binding := bid + 1 }
            let w2 := g_binding_constructed ts w1 bid
            let w3 := updBinding w2 bid (fun x =>
              { x with transform_s2t := transform_to, transform_t2s := transform_from,
                       transform_data := user_data, has_notify := notify })
            (some bid, w3)

/-- `g_object_bind_property` (gbinding.c lines 919-934): the convenience
wrapper passing NULL transforms and context. -/
def g_object_bind_property (ts : TypeSystem) (w : World)
    (source : Nat) (source_property : String)
    (target : Nat) (target_property : String)
    (bidirectional : Bool) : Option Nat × World :=
  g_object_bind_property_full ts w source source_property target target_property
    bidirectional none none 0 false

/-- `g_binding_get_source` (gbinding.c lines 672-678). -/
def g_binding_get_source (w : World) (bid : Nat) : Option Nat :=
  (w.bindings bid).source

/-- `g_binding_get_target` (gbinding.c lines 690-696). -/
def g_binding_get_target (w : World) (bid : Nat) : Option Nat :=
  (w.bindings bid).target

/-- `g_binding_get_source_property` (gbinding.c lines 709-715). -/
def g_binding_get_source_property (w : World) (bid : Nat) : String :=
  (w.bindings bid).source_property

/-- `g_binding_get_target_property` (gbinding.c lines 728-734). -/
def g_binding_get_target_property (w : World) (bid : Nat) : String :=
  (w.bindings bid).target_property

/-- `g_binding_get_flags` (gbinding.c lines 654-660), reduced to the only
flag bit, `G_BINDING_BIDIRECTIONAL`. -/
def g_binding_get_flags (w : World) (bid : Nat) : Bool :=
  (w.bindings bid).bidirectional

/-- `g_dbus_auth_observer_authorize_authenticated_peer_real`
(gdbusauthobserver.c lines 125-131): the class default handler, returning
TRUE (allow).  Streams and credentials are opaque `Nat`s. -/
def g_dbus_auth_observer_authorize_authenticated_peer_real
    (_stream _credentials : Nat) : Bool :=
  true

/-- Modelled from the spec: signal emission for the
`authorize-authenticated-peer` signal (gdbusauthobserver.c lines 155-166
declare it `G_SIGNAL_RUN_LAST` with `_g_signal_accumulator_false_handled`,
whose implementation is repository code outside the given sources).  User
handlers run in subscription order; a handler returning FALSE (deny,
handled) stops emission with result FALSE; otherwise the RUN_LAST class
default runs last.  The result is the last handler's return value. -/
def emit_authorize_authenticated_peer : List (Nat → Nat → Bool) → Nat → Nat → Bool
  | [], stream, credentials =>
      g_dbus_auth_observer_authorize_authenticated_peer_real stream credentials
  | h :: rest, stream, credentials =>
      if h stream credentials then emit_authorize_authenticated_peer rest stream credentials
      else false

/-- `g_dbus_auth_observer_authorize_authenticated_peer`
(gdbusauthobserver.c lines 203-218): emit the signal and return the
accumulated decision.  The observer's attached handlers stand in for the
observer argument. -/
def g_dbus_auth_observer_authorize_authenticated_peer
    (handlers : List (Nat → Nat → Bool)) (stream credentials : Nat) : Bool :=
  emit_authorize_authenticated_peer handlers stream credentials

/-! ## Canonical scenario worlds -/

/-- A type system with one value type, tag `0`, related to itself by
`g_type_is_a` (every GType is_a itself); no generic conversions. -/
def tsNat : TypeSystem :=
  { is_a := fun a b => a == b, compatible := fun _ _ => false,
    transformable := fun _ _ => false, transform := fun _ _ => none }

/-- A type system on which types `1` and `2` are unrelated: not
`is_a`-related, not directly compatible, and with no registered generic
conversion between them. -/
def tsNone : TypeSystem :=
  { is_a := fun _ _ => false, compatible := fun _ _ => false,
    transformable := fun _ _ => false, transform := fun _ _ => none }

/-- Property `x`: readable, writable, not construct-only, value type `0`,
validation the identity. -/
def pspecX : GParamSpec :=
  { name := "x", value_type := 0, readable := true, writable := true,
    construct_only := false, validate := fun v => v }

/-- Property `y`: readable, writable, not construct-only, value type `0`,
validation the identity. -/
def pspecY : GParamSpec :=
  { name := "y", value_type := 0, readable := true, writable := true,
    construct_only := false, validate := fun v => v }

/-- Object `A` (id 1): one property `x`, initially `0`. -/
def objA : GObjectState :=
  { pspecs := [pspecX], props := [("x", ⟨0, 0⟩)], subs := [], weaks := [],
    qdata := [], alive := true }

/-- Object `B` (id 2): one property `y`, initially `0`. -/
def objB : GObjectState :=
  { pspecs := [pspecY], props := [("y", ⟨0, 0⟩)], subs := [], weaks := [],
    qdata := [], alive := true }

/-- The initial world: objects `A` (id 1) and `B` (id 2), no bindings. -/
def w0 : World :=
  { objects := fun k => if k = 1 then objA else if k = 2 then objB else default,
    bindings := fun _ => default,
    next_handler := 1, next_binding := 1 }

/-- The canonical one-way world: `A.x → B.y` bound with default
transforms. -/
def wOne : World :=
  (g_object_bind_property tsNat w0 1 "x" 2 "y" false).2

/-- The canonical bidirectional world: `A.x ↔ B.y` bound with default
transforms. -/
def wBi : World :=
  (g_object_bind_property tsNat w0 1 "x" 2 "y" true).2

/-! ## Helper lemmas -/

theorem updBinding_self (w : World) (bid : Nat) (f : Binding → Binding) :
    (updBinding w bid f).bindings bid = f (w.bindings bid) := by
  simp [updBinding]

theorem updBinding_ne (w : World) (b' bid : Nat) (f : Binding → Binding)
    (h : b' ≠ bid) : (updBinding w b' f).bindings bid = w.bindings bid := by
  simp [updBinding, Ne.symm h]

theorem store_prop_bindings (w : World) (o : Nat) (name : String) (v : GValue) :
    (store_prop w o name v).bindings = w.bindings := rfl

theorem source_step_none_of_frozen (w : World) (pname : String) (bid : Nat)
    (h : (w.bindings bid).is_frozen = true) :
    source_propagation_step w pname bid = none := by
  simp [source_propagation_step, h]

theorem target_step_none_of_frozen (w : World) (pname : String) (bid : Nat)
    (h : (w.bindings bid).is_frozen = true) :
    target_propagation_step w pname bid = none := by
  simp [target_propagation_step, h]

theorem source_step_some_not_frozen (w : World) (pname : String) (bid : Nat)
    (tv : GValue) (h : source_propagation_step w pname bid = some tv) :
    (w.bindings bid).is_frozen = false := by
  by_cases hf : (w.bindings bid).is_frozen = true
  · rw [source_step_none_of_frozen w pname bid hf] at h; cases h
  · simpa using hf

theorem target_step_some_not_frozen (w : World) (pname : String) (bid : Nat)
    (tv : GValue) (h : target_propagation_step w pname bid = some tv) :
    (w.bindings bid).is_frozen = false := by
  by_cases hf : (w.bindings bid).is_frozen = true
  · rw [target_step_none_of_frozen w pname bid hf] at h; cases h
  · simpa using hf

/-- While a binding's guard flag is set, no amount of propagation activity —
external writes, notification dispatch, other bindings' handlers — can
clear it or make that binding perform a destination write. -/
theorem frozen_stable (bid : Nat) : ∀ (fuel : Nat) (w : World) (call : Call),
    (w.bindings bid).is_frozen = true →
    ((run fuel w call).1.bindings bid).is_frozen = true ∧
      firedCount bid (run fuel w call).2 = 0 := by
  intro fuel
  induction fuel with
  | zero => intro w call h; exact ⟨h, rfl⟩
  | succ n ih =>
    intro w call h
    cases call with
    | set obj name v =>
      have hb : ((store_prop w obj name v).bindings bid).is_frozen = true := h
      have h1 := ih (store_prop w obj name v)
        (Call.notif (((store_prop w obj name v).objects obj).subs) obj name) hb
      simp only [run]
      refine ⟨h1.1, ?_⟩
      have h2 := h1.2
      simp only [firedCount] at h2 ⊢
      rw [List.countP_cons, h2]
      rfl
    | notif subs obj name =>
      cases subs with
      | nil => exact ⟨h, rfl⟩
      | cons p rest =>
        obtain ⟨hid, hh⟩ := p
        have h1 := ih w (Call.handle obj name hh) h
        have h2 := ih (run n w (Call.handle obj name hh)).1 (Call.notif rest obj name) h1.1
        simp only [run]
        refine ⟨h2.1, ?_⟩
        simp [firedCount, List.countP_append] at h1 h2 ⊢
        exact ⟨h1.2, h2.2⟩
    | handle obj pname hh =>
      cases hh with
      | onSource b' =>
        cases hstep : source_propagation_step w pname b' with
        | none => simp only [run, hstep]; exact ⟨h, rfl⟩
        | some tv =>
          by_cases hbb : b' = bid
          · subst hbb
            rw [source_step_none_of_frozen w pname b' h] at hstep; cases hstep
          · have hb1 : ((updBinding w b' (fun x => { x with is_frozen := true })).bindings bid).is_frozen = true := by
              rw [updBinding_ne w b' bid _ hbb]; exact h
            have h1 := ih (updBinding w b' (fun x => { x with is_frozen := true }))
              (Call.set ((w.bindings b').target.getD 0) (w.bindings b').target_pspec.name tv) hb1
            simp only [run, hstep]
            constructor
            · rw [updBinding_ne _ b' bid _ hbb]; exact h1.1
            · have h2 := h1.2
              simp only [firedCount] at h2 ⊢
              rw [List.countP_cons, h2]
              simp [isFired, hbb]
      | onTarget b' =>
        cases hstep : target_propagation_step w pname b' with
        | none => simp only [run, hstep]; exact ⟨h, rfl⟩
        | some tv =>
          by_cases hbb : b' = bid
          · subst hbb
            rw [target_step_none_of_frozen w pname b' h] at hstep; cases hstep
          · have hb1 : ((updBinding w b' (fun x => { x with is_frozen := true })).bindings bid).is_frozen = true := by
              rw [updBinding_ne w b' bid _ hbb]; exact h
            have h1 := ih (updBinding w b' (fun x => { x with is_frozen := true }))
              (Call.set ((w.bindings b').source.getD 0) (w.bindings b').source_pspec.name tv) hb1
            simp only [run, hstep]
            constructor
            · rw [updBinding_ne _ b' bid _ hbb]; exact h1.1
            · have h2 := h1.2
              simp only [firedCount] at h2 ⊢
              rw [List.countP_cons, h2]
              simp [isFired, hbb]

/-! ## Claim theorems -/

/-- Claim C1: for every Link and every notification, the propagation
handlers are re-entrancy safe: (a) a notification arriving while the
Link's guard flag is set returns immediately, changing nothing and
performing no read, transform or write; (b) one handler activation
performs at most one write on the opposite endpoint (the handler sets the
guard flag before the destination write and clears it afterwards, and
while it is set the Link never reacts — `frozen_stable` — so the Link
never reacts to its own induced write); (c) the guard flag is restored
after every activation; and (d) on the canonical bidirectional binding a
single external write produces exactly one store on each endpoint and
terminates. -/
theorem c1_guard_single_propagation :
    (∀ (fuel : Nat) (w : World) (gobject : Nat) (pname : String) (bid : Nat),
      ((w.bindings bid).is_frozen = true →
        on_source_notify fuel w gobject pname bid = (w, []) ∧
        on_target_notify fuel w gobject pname bid = (w, [])) ∧
      firedCount bid (on_source_notify fuel w gobject pname bid).2 ≤ 1 ∧
      firedCount bid (on_target_notify fuel w gobject pname bid).2 ≤ 1 ∧
      ((on_source_notify fuel w gobject pname bid).1.bindings bid).is_frozen
        = (w.bindings bid).is_frozen ∧
      ((on_target_notify fuel w gobject pname bid).1.bindings bid).is_frozen
        = (w.bindings bid).is_frozen) ∧
    (∀ v : Nat, (set_property 10 wBi 1 "x" ⟨0, v⟩).2
        = [Ev.store 1 "x" v, Ev.fired 1, Ev.store 2 "y" v]) := by
  constructor
  · intro fuel w gobject pname bid
    refine ⟨?_, ?_, ?_, ?_, ?_⟩
    · intro h
      cases fuel with
      | zero => exact ⟨rfl, rfl⟩
      | succ n =>
        constructor
        · simp only [on_source_notify, run, source_step_none_of_frozen w pname bid h]
        · simp only [on_target_notify, run, target_step_none_of_frozen w pname bid h]
    · cases fuel with
      | zero => simp [on_source_notify, run, firedCount]
      | succ n =>
        cases hstep : source_propagation_step w pname bid with
        | none => simp [on_source_notify, run, hstep, firedCount]
        | some tv =>
          have hfroz : ((updBinding w bid (fun x => { x with is_frozen := true })).bindings bid).is_frozen = true := by
            simp [updBinding_self]
          have hs := frozen_stable bid n
            (updBinding w bid (fun x => { x with is_frozen := true }))
            (Call.set ((w.bindings bid).target.getD 0) (w.bindings bid).target_pspec.name tv)
            hfroz
          simp only [on_source_notify, run, hstep]
          simp only [firedCount] at hs ⊢
          rw [List.countP_cons, hs.2]
          simp [isFired]
    · cases fuel with
      | zero => simp [on_target_notify, run, firedCount]
      | succ n =>
        cases hstep : target_propagation_step w pname bid with
        | none => simp [on_target_notify, run, hstep, firedCount]
        | some tv =>
          have hfroz : ((updBinding w bid (fun x => { x with is_frozen := true })).bindings bid).is_frozen = true := by
            simp [updBinding_self]
          have hs := frozen_stable bid n
            (updBinding w bid (fun x => { x with is_frozen := true }))
            (Call.set ((w.bindings bid).source.getD 0) (w.bindings bid).source_pspec.name tv)
            hfroz
          simp only [on_target_notify, run, hstep]
          simp only [firedCount] at hs ⊢
          rw [List.countP_cons, hs.2]
          simp [isFired]
    · cases fuel with
      | zero => rfl
      | succ n =>
        cases hstep : source_propagation_step w pname bid with
        | none => simp [on_source_notify, run, hstep]
        | some tv =>
          have h0 := source_step_some_not_frozen w pname bid tv hstep
          simp only [on_source_notify, run, hstep]
          simp [updBinding_self, h0]
    · cases fuel with
      | zero => rfl
      | succ n =>
        cases hstep : target_propagation_step w pname bid with
        | none => simp [on_target_notify, run, hstep]
        | some tv =>
          have h0 := target_step_some_not_frozen w pname bid tv hstep
          simp only [on_target_notify, run, hstep]
          simp [updBinding_self, h0]
  · intro v
    rfl

/-- The canonical bidirectional world with the binding's guard flag set,
used to witness the frozen-handler part of claim C1. -/
def wFrozenC1 : World :=
  updBinding wBi 1 (fun b => { b with is_frozen := true })

/-- Witness for claim C1: on a concrete frozen binding, the handler
returns immediately with the world unchanged and an empty trace. -/
theorem c1_guard_single_propagation_witness :
    on_source_notify 5 wFrozenC1 1 "x" 1 = (wFrozenC1, []) :=
  ((c1_guard_single_propagation.1 5 wFrozenC1 1 "x" 1).1 (by rfl)).1

/-- A custom transformation function that declines (returns FALSE) exactly
when the incoming value's contents are `13`, and otherwise passes the
value through. -/
def tfDecline13 : TransformFn :=
  fun _binding value_a _value_b _user_data =>
    if value_a.pay == 13 then none else some value_a

/-- The canonical one-way world whose forward transform is
`tfDecline13`. -/
def wDecline : World :=
  (g_object_bind_property_full tsNat w0 1 "x" 2 "y" false (some tfDecline13) none 0 false).2

/-- Claim C4: whenever a direction's transform reports failure, the
propagation performs no write at all (the world, and in particular the
destination property's prior value and the guard flag, is unchanged and
the trace is empty); and the Link stays usable — on the canonical world
with a declining transform, the failing write leaves the target at its
prior value with the guard clear, and a later notification propagates
again. -/
theorem c4_transform_failure_containment :
    (∀ (fuel : Nat) (w : World) (gobject : Nat) (pname : String) (bid : Nat),
      (source_transform_result w bid = none →
        on_source_notify fuel w gobject pname bid = (w, [])) ∧
      (target_transform_result w bid = none →
        on_target_notify fuel w gobject pname bid = (w, []))) ∧
    ((set_property 10 wDecline 1 "x" ⟨0, 13⟩).2 = [Ev.store 1 "x" 13] ∧
     alist_get (((set_property 10 wDecline 1 "x" ⟨0, 13⟩).1.objects 2).props) "y" = some ⟨0, 0⟩ ∧
     ((set_property 10 wDecline 1 "x" ⟨0, 13⟩).1.bindings 1).is_frozen = false ∧
     alist_get (((set_property 10 (set_property 10 wDecline 1 "x" ⟨0, 13⟩).1 1 "x" ⟨0, 7⟩).1.objects 2).props) "y"
       = some ⟨0, 7⟩) := by
  constructor
  · intro fuel w gobject pname bid
    constructor
    · intro h
      have hstep : source_propagation_step w pname bid = none := by
        simp [source_propagation_step, h]
      cases fuel with
      | zero => rfl
      | succ n => simp only [on_source_notify, run, hstep]
    · intro h
      have hstep : target_propagation_step w pname bid = none := by
        simp [target_propagation_step, h]
      cases fuel with
      | zero => rfl
      | succ n => simp only [on_target_notify, run, hstep]
  · exact ⟨rfl, rfl, rfl, rfl⟩

/-- The canonical declining-transform world after the failing write: the
source property holds `13`, on which the transform reports failure. -/
def wDecline13 : World :=
  (set_property 10 wDecline 1 "x" ⟨0, 13⟩).1

/-- Witness for claim C4: at the concrete world whose source value the
transform declines, the handler leaves the world unchanged with an empty
trace. -/
theorem c4_transform_failure_containment_witness :
    on_source_notify 5 wDecline13 1 "x" 1 = (wDecline13, []) :=
  (c4_transform_failure_containment.1 5 wDecline13 1 "x" 1).1 (by rfl)

/-- Claim C8: on the canonical one-way Link `A.x → B.y`, no notification
subscription is made on the target (and the target subscription handle
keeps its zero sentinel), setting `A.x` to any `v` makes `B.y` equal `v`,
and a subsequent write of any `u` to `B.y` leaves `A.x` unchanged — no
back-propagation ever occurs. -/
theorem c8_one_way_no_back_propagation :
    (wOne.objects 2).subs = [] ∧
    (wOne.bindings 1).target_notify = 0 ∧
    ∀ (v u : Nat),
      alist_get (((set_property 10 wOne 1 "x" ⟨0, v⟩).1.objects 2).props) "y" = some ⟨0, v⟩ ∧
      alist_get (((set_property 10 wOne 1 "x" ⟨0, v⟩).1.objects 1).props) "x" = some ⟨0, v⟩ ∧
      alist_get (((set_property 10 (set_property 10 wOne 1 "x" ⟨0, v⟩).1 2 "y" ⟨0, u⟩).1.objects 1).props) "x"
        = some ⟨0, v⟩ ∧
      alist_get (((set_property 10 (set_property 10 wOne 1 "x" ⟨0, v⟩).1 2 "y" ⟨0, u⟩).1.objects 2).props) "y"
        = some ⟨0, u⟩ := by
  refine ⟨rfl, rfl, fun v u => ⟨rfl, rfl, rfl, rfl⟩⟩

/-- Claim C3: `bind` returns a Link exactly when all validation
preconditions hold — both named properties exist on the respective
objects' types, the (source, source property) pair differs from the
(target, target property) pair, the source property is readable, the
target property is writable and not construct-only, and for bidirectional
bindings additionally the source property is writable and not
construct-only and the target property is readable; on any failed
precondition no Link is returned. -/
theorem c3_bind_validation (ts : TypeSystem) (w : World)
    (source : Nat) (sp : String) (target : Nat) (tp : String)
    (bidir : Bool) (t1 t2 : Option TransformFn) (ud : Nat) (nf : Bool) :
    (g_object_bind_property_full ts w source sp target tp bidir t1 t2 ud nf).1.isSome = true ↔
      (¬(source = target ∧ sp = tp) ∧
       ∃ ps tps : GParamSpec,
         g_object_class_find_property w source sp = some ps ∧
         g_object_class_find_property w target tp = some tps ∧
         ps.readable = true ∧
         (bidir = true → ps.construct_only = false ∧ ps.writable = true) ∧
         tps.writable = true ∧ tps.construct_only = false ∧
         (bidir = true → tps.readable = true)) := by
  by_cases hself : source = target ∧ sp = tp
  · simp [g_object_bind_property_full, hself]
  · cases hs : g_object_class_find_property w source sp with
    | none => simp [g_object_bind_property_full, hself, hs]
    | some ps =>
      cases ht : g_object_class_find_property w target tp with
      | none =>
        constructor
        · intro h
          simp only [g_object_bind_property_full, if_neg hself, hs, ht] at h
          simp at h
        · rintro ⟨-, ps', tps', -, htps', -⟩
          simp at htps'
      | some tps =>
        constructor
        · intro h
          simp only [g_object_bind_property_full, if_neg hself, hs, ht] at h
          cases hr : ps.readable with
          | false => simp [hr] at h
          | true =>
          cases hb1 : (bidir && (ps.construct_only || !ps.writable)) with
          | true => simp [hr, hb1] at h
          | false =>
          cases hb2 : (tps.construct_only || !tps.writable) with
          | true => simp [hr, hb1, hb2] at h
          | false =>
          cases hb3 : (bidir && !tps.readable) with
          | true => simp [hr, hb1, hb2, hb3] at h
          | false =>
          have hb2' : tps.construct_only = false ∧ tps.writable = true := by
            simpa using hb2
          refine ⟨hself, ps, tps, rfl, rfl, hr, ?_, hb2'.2, hb2'.1, ?_⟩
          · intro hbd
            rw [hbd] at hb1
            simpa using hb1
          · intro hbd
            rw [hbd] at hb3
            simpa using hb3
        · rintro ⟨-, ps', tps', hps', htps', hr, hbi1, hwr, hco, hbi2⟩
          injection hps' with he1
          subst he1
          injection htps' with he2
          subst he2
          have hb1 : (bidir && (ps.construct_only || !ps.writable)) = false := by
            cases bidir with
            | false => rfl
            | true =>
              obtain ⟨h1, h2⟩ := hbi1 rfl
              simp [h1, h2]
          have hb2 : (tps.construct_only || !tps.writable) = false := by
            simp [hwr, hco]
          have hb3 : (bidir && !tps.readable) = false := by
            cases bidir with
            | false => rfl
            | true => simp [hbi2 rfl]
          simp [g_object_bind_property_full, if_neg hself, hs, ht, hr, hb1, hb2, hb3]

/-- Witness for claim C3: the canonical bidirectional bind succeeds, by
the right-to-left direction of the validation theorem with every
precondition discharged concretely. -/
theorem c3_bind_validation_witness :
    (g_object_bind_property_full tsNat w0 1 "x" 2 "y" true none none 0 false).1.isSome = true :=
  (c3_bind_validation tsNat w0 1 "x" 2 "y" true none none 0 false).mpr
    ⟨by decide, pspecX, pspecY, rfl, rfl, rfl, fun _ => ⟨rfl, rfl⟩, rfl, rfl, fun _ => rfl⟩

/-- Claim C7: every construction-time bind failure is atomic — when no
Link is returned, the returned world is exactly the input world: no Link
entity, no notification subscription, no registry entry and no weak
reference was created on either endpoint. -/
theorem c7_bind_failure_atomic (ts : TypeSystem) (w : World)
    (source : Nat) (sp : String) (target : Nat) (tp : String)
    (bidir : Bool) (t1 t2 : Option TransformFn) (ud : Nat) (nf : Bool)
    (h : (g_object_bind_property_full ts w source sp target tp bidir t1 t2 ud nf).1 = none) :
    (g_object_bind_property_full ts w source sp target tp bidir t1 t2 ud nf).2 = w := by
  by_cases hself : source = target ∧ sp = tp
  · simp [g_object_bind_property_full, hself]
  · cases hs : g_object_class_find_property w source sp with
    | none => simp [g_object_bind_property_full, hself, hs]
    | some ps =>
      cases hr : ps.readable with
      | false => simp [g_object_bind_property_full, hself, hs, hr]
      | true =>
      cases hb1 : (bidir && (ps.construct_only || !ps.writable)) with
      | true => simp [g_object_bind_property_full, hself, hs, hr, hb1]
      | false =>
      cases ht : g_object_class_find_property w target tp with
      | none => simp [g_object_bind_property_full, hself, hs, hr, hb1, ht]
      | some tps =>
      cases hb2 : (tps.construct_only || !tps.writable) with
      | true => simp [g_object_bind_property_full, hself, hs, hr, hb1, ht, hb2]
      | false =>
      cases hb3 : (bidir && !tps.readable) with
      | true => simp [g_object_bind_property_full, hself, hs, hr, hb1, ht, hb2, hb3]
      | false =>
        simp [g_object_bind_property_full, hself, hs, hr, hb1, ht, hb2, hb3] at h

/-- Witness for claim C7: the rejected self-binding
`bind(A, "x", A, "x")` leaves the world untouched. -/
theorem c7_bind_failure_atomic_witness :
    (g_object_bind_property_full tsNat w0 1 "x" 1 "x" false none none 0 false).2 = w0 :=
  c7_bind_failure_atomic tsNat w0 1 "x" 1 "x" false none none 0 false (by rfl)

/-- A type system with a registered generic conversion from type `1` to
type `2` (add one to the contents), which declines contents `99`. -/
def tsConv : TypeSystem :=
  { is_a := fun a b => a == b, compatible := fun _ _ => false,
    transformable := fun a b => a == 1 && b == 2,
    transform := fun v t => if v.pay == 99 then none else some ⟨t, v.pay + 1⟩ }

/-- Claim C5 (evaluation of the code at the failing input): identical
types produce a direct copy, a registered generic conversion is applied
when one exists and its failure is reported — but for two types with no
`is_a` relation, no direct compatibility and no registered conversion,
`default_transform` falls through to `done:` and reports SUCCESS with the
destination left at its initialized contents, instead of reporting
failure as the claim states. -/
theorem c5_default_transform_fallthrough :
    default_transform tsNat ⟨0, 7⟩ ⟨0, 0⟩ = some ⟨0, 7⟩ ∧
    default_transform tsConv ⟨1, 5⟩ ⟨2, 0⟩ = some ⟨2, 6⟩ ∧
    default_transform tsConv ⟨1, 99⟩ ⟨2, 0⟩ = none ∧
    (tsNone.is_a 1 2 = false ∧ tsNone.compatible 1 2 = false ∧
     tsNone.transformable 1 2 = false) ∧
    default_transform tsNone ⟨1, 5⟩ ⟨2, 0⟩ = some ⟨2, 0⟩ := by
  exact ⟨rfl, rfl, rfl, ⟨rfl, rfl, rfl⟩, rfl⟩

/-- The world after a second successful bind of `A.x → B.y` on top of
`wOne` (binding id 2). -/
def wTwo : World :=
  (g_object_bind_property tsNat wOne 1 "x" 2 "y" false).2

/-- Claim C6 (evaluation of the code at the failing input): the first
Link is registered in both endpoints' registry entries, and a second bind
on the same endpoints succeeds (id 2) — but the second Link is absent
from both stored registry entries (`add_binding_qdata` discards the
prepended head when the stored list is non-empty), and teardown does not
remove the first Link from the surviving endpoint's stored registry entry
(`remove_binding_qdata` discards the removal result). -/
theorem c6_registry_membership_bug :
    (wOne.objects 1).qdata = [1] ∧ (wOne.objects 2).qdata = [1] ∧
    (g_object_bind_property tsNat wOne 1 "x" 2 "y" false).1 = some 2 ∧
    (wTwo.objects 1).qdata = [1] ∧ (wTwo.objects 2).qdata = [1] ∧
    ((destroy_object wOne 2).objects 1).qdata = [1] := by
  exact ⟨rfl, rfl, rfl, rfl, rfl, rfl⟩

/-- The world for claim C2: `A.x → B.y` bound with a user context and a
release callback, after which the target `B` is destroyed. -/
def wC2After : World :=
  destroy_object (g_object_bind_property_full tsNat w0 1 "x" 2 "y" false none none 7 true).2 2

/-- Claim C2 (evaluation of the code at the failing input): destroying
the target disconnects the Link's subscription on the surviving source,
drops the weak reference, invalidates both endpoint references, runs the
release callback exactly once and finalizes the Link — but the Link is
NOT removed from the surviving endpoint's stored registry entry
(`remove_binding_qdata` never stores the computed list back; in the C the
stored qdata is left pointing at the freed list node). -/
theorem c2_teardown_registry_bug :
    (wC2After.objects 1).subs = [] ∧
    (wC2After.objects 1).weaks = [] ∧
    (wC2After.bindings 1).source = none ∧
    (wC2After.bindings 1).target = none ∧
    (wC2After.bindings 1).notify_calls = 1 ∧
    (wC2After.bindings 1).has_notify = false ∧
    (wC2After.bindings 1).finalized = true ∧
    (wC2After.objects 1).qdata = [1] := by
  exact ⟨rfl, rfl, rfl, rfl, rfl, rfl, rfl, rfl⟩

/-- Claim C9: with no handler attached, the authorization decision point
returns allow (`true`); and if any attached handler returns deny
(`false`), the decision is reject (`false`). -/
theorem c9_authorize_default_allow_deny_wins :
    (∀ stream credentials : Nat,
      g_dbus_auth_observer_authorize_authenticated_peer [] stream credentials = true) ∧
    (∀ (handlers : List (Nat → Nat → Bool)) (stream credentials : Nat)
       (h : Nat → Nat → Bool), h ∈ handlers → h stream credentials = false →
      g_dbus_auth_observer_authorize_authenticated_peer handlers stream credentials = false) := by
  constructor
  · intro s c
    rfl
  · intro handlers s c h
    induction handlers with
    | nil => intro hmem _; cases hmem
    | cons g rest ih =>
      intro hmem hdeny
      rcases List.mem_cons.mp hmem with he | hm
      · subst he
        simp [g_dbus_auth_observer_authorize_authenticated_peer,
          emit_authorize_authenticated_peer, hdeny]
      · cases hgv : g s c with
        | false =>
          simp [g_dbus_auth_observer_authorize_authenticated_peer,
            emit_authorize_authenticated_peer, hgv]
        | true =>
          simp only [g_dbus_auth_observer_authorize_authenticated_peer,
            emit_authorize_authenticated_peer, hgv, if_true]
          exact ih hm hdeny

/-- Witness for claim C9: one attached denying handler rejects the
connection. -/
theorem c9_authorize_witness :
    g_dbus_auth_observer_authorize_authenticated_peer [fun _ _ => false] 3 4 = false :=
  c9_authorize_default_allow_deny_wins.2 [fun _ _ => false] 3 4 (fun _ _ => false)
    (List.mem_singleton.mpr rfl) rfl

/-- The world for claim C10: `A.x`–`B.y` bound (direction given by
`bidir`), the creator keeping its own reference on the Link, then the
chosen endpoint destroyed. -/
def c10_world (bidir : Bool) (victim : Nat) : World :=
  destroy_object
    (g_object_ref_binding (g_object_bind_property tsNat w0 1 "x" 2 "y" bidir).2 1)
    victim

/-- Claim C10: in all four configurations (one-way or bidirectional,
source or target destroyed first), after teardown the endpoint accessors
return null while the property-name and flags accessors still return the
construction-time values, and the still-referenced Link is not
finalized. -/
theorem c10_accessors_after_teardown :
    ∀ (bidir victim_is_source : Bool),
      g_binding_get_source (c10_world bidir (if victim_is_source then 1 else 2)) 1 = none ∧
      g_binding_get_target (c10_world bidir (if victim_is_source then 1 else 2)) 1 = none ∧
      g_binding_get_source_property (c10_world bidir (if victim_is_source then 1 else 2)) 1 = "x" ∧
      g_binding_get_target_property (c10_world bidir (if victim_is_source then 1 else 2)) 1 = "y" ∧
      g_binding_get_flags (c10_world bidir (if victim_is_source then 1 else 2)) 1 = bidir ∧
      ((c10_world bidir (if victim_is_source then 1 else 2)).bindings 1).finalized = false := by
  intro b v
  cases b <;> cases v <;> exact ⟨rfl, rfl, rfl, rfl, rfl, rfl⟩
